import Mathlib

/-!
Verification of the video-social-stories generation pipeline.

Shallow embedding of the core pipeline components of the repository:
the render coordinator (`node_render` in
`social_story_backend/api/social_story/orchestrator.py`), the asset
stage (`node_assets` in `social_story_backend/social_story/orchestrator.py`),
the FastAPI job endpoints (`social_story_backend/social_story/app.py`),
the speech adapter retry loop
(`social_story_backend/social_story/elevenlabs_client.py`),
the render worker (`render_worker/app.py`) and the KV job state store
(`social_story_backend/social_story/kv_storage.py`).
-/

namespace SocialStory

/-- `Scene` from `api/social_story/models.py`: one narrated beat of a story. -/
structure Scene where
  id : Int
  goal : String
  script : String
  on_screen_text : String
  image_prompt : String
  duration_sec : Int
  audio_ssml : String
deriving Repr, DecidableEq

/-- `StorySpec` from `api/social_story/models.py` (the `meta` dict is kept as
its serialized JSON text). -/
structure StorySpec where
  meta : String
  scenes : List Scene
  closing_affirmation : String
  srt : String
deriving Repr, DecidableEq

/-! ## Python dict model (insertion-ordered association list)

`dictGet?` and `dictSet` model Python `d.get(k)` / `d[k] = v`: lookup finds
the unique entry for a key, assignment overwrites in place or appends a new
entry at the end, preserving insertion order. -/

def dictGet? {V : Type} : List (String × V) → String → Option V
  | [], _ => none
  | (k', v) :: rest, k => if k' = k then some v else dictGet? rest k

def dictSet {V : Type} : List (String × V) → String → V → List (String × V)
  | [], k, v => [(k, v)]
  | (k', v') :: rest, k, v =>
      if k' = k then (k, v) :: rest else (k', v') :: dictSet rest k v

/-! ## C1: render coordinator, remote-worker acceptance
(`node_render`, `api/social_story/orchestrator.py` lines 109-222) -/

/-- The shape of a remote render-worker HTTP response as inspected by
`node_render`: status code, declared `content-type` header, and the number
of body bytes written to `final.mp4`. -/
structure WorkerResponse where
  status_code : Nat
  content_type : String
  body_size : Nat
deriving Repr, DecidableEq

/-- `needle in hay` on Python strings (substring containment). -/
def pyIn (needle hay : String) : Bool :=
  decide (needle.toList <:+: hay.toList)

/-- ASCII case folding of one character, as Python's `str.lower` acts on the
ASCII header values compared here. -/
def charLower (c : Char) : Char :=
  if 'A' ≤ c ∧ c ≤ 'Z' then Char.ofNat (c.toNat + 32) else c

/-- Python `s.lower()` (ASCII range). -/
def pyLower (s : String) : String := String.mk (s.toList.map charLower)

/-- Which strategy produced the final artifact. -/
inductive RenderSource where
  | remote
  | localFallback
deriving Repr, DecidableEq

/-- Outcome of `node_render` when `RENDER_WORKER_URL` is configured:
how many requests were made to the remote worker, how many times the local
ffmpeg strategy was entered, and which strategy's artifact was kept. -/
structure RenderOutcome where
  remote_attempts : Nat
  local_attempts : Nat
  source : RenderSource
deriving Repr, DecidableEq

/-- The response-rejection test of `node_render`, in source order:
`resp.status_code >= 400`, then
`"video/mp4" not in content_type.lower()`, then `file_size <= 1024`. -/
def workerResponseRejected (r : WorkerResponse) : Bool :=
  decide (400 ≤ r.status_code) ||
  !(pyIn "video/mp4" (pyLower r.content_type)) ||
  decide (r.body_size ≤ 1024)

/-- `node_render` with `RENDER_WORKER_URL` configured: one request to the
remote worker; if the response is rejected the single `try` block falls
through to the local ffmpeg strategy (entered once, never looping back to
the worker), otherwise the remote body is the final artifact. -/
def node_render_remote (r : WorkerResponse) : RenderOutcome :=
  if workerResponseRejected r then
    { remote_attempts := 1, local_attempts := 1, source := .localFallback }
  else
    { remote_attempts := 1, local_attempts := 0, source := .remote }

/-- A status code is 2xx (success class). -/
def is2xx (code : Nat) : Prop := 200 ≤ code ∧ code < 300

instance (code : Nat) : Decidable (is2xx code) := by
  unfold is2xx; infer_instance

/-! ## C2/C3/C7: KV-backed asynchronous job flow
(`social_story/app.py`) -/

/-- `StoryRequest` from `api/social_story/models.py`. -/
structure StoryRequest where
  age : Int
  reading_level : String
  diagnosis_summary : String
  situation : String
  setting : String
  words_to_avoid : List String
  voice_preset : String
deriving Repr, DecidableEq

/-- A KV job record, structured view of the dict built by
`create_job_record` (`app.py` lines 68-82) with the `current_step` key
added later by `update_job_status` kwargs (absent initially). -/
structure KVJob where
  job_id : String
  status : String
  error : Option String
  request : StoryRequest
  created_at : String
  spec : Option StorySpec
  scenes_completed : Nat
  total_scenes : Nat
  final_path : Option String
  current_step : Option String
deriving Repr, DecidableEq

/-- `create_job_record` (`app.py` lines 68-82): fresh record with status
`queued`, no error, zero counters and no final path. -/
def create_job_record (job_id : String) (req : StoryRequest) (created_at : String) : KVJob :=
  { job_id := job_id, status := "queued", error := none, request := req,
    created_at := created_at, spec := none, scenes_completed := 0,
    total_scenes := 0, final_path := none, current_step := none }

/-- The two leading `update_job_status` calls of `start_story_generation`
(`app.py` lines 147-159): mark running, then store the spec, total scene
count and `current_step := "generating_assets"`. -/
def start_story_generation_head (spec : StorySpec) (j : KVJob) : KVJob :=
  let j1 := { j with status := "running" }
  { j1 with status := "running", spec := some spec,
            total_scenes := spec.scenes.length,
            current_step := some "generating_assets" }

/-- Completion of one scene's asset processing, as interleaved by
`process_scene_with_delay` / `initiate_scene_assets`: either the scene's
assets succeed, or asset generation raises with message `msg`. -/
inductive SceneEvent where
  | success (scene_id : Int)
  | failure (scene_id : Int) (msg : String)
deriving Repr, DecidableEq

/-- Whether a scene completion event is a success. -/
def isSuccessEvent : SceneEvent → Bool
  | .success _ => true
  | .failure _ _ => false

/-- Effect of one scene completion on the job record.
Success (`initiate_scene_assets`, lines 218-222): re-read the record,
increment `scenes_completed`, `update_job_status(job_id, "running", ...)`.
Failure (`process_scene_with_delay`, lines 199-201):
`update_job_status(job_id, "failed", error=str(e))`, where a falsy (empty)
message leaves the stored error untouched. -/
def applySceneEvent (j : KVJob) : SceneEvent → KVJob
  | .success _ =>
      { j with status := "running", scenes_completed := j.scenes_completed + 1 }
  | .failure _ msg =>
      { j with status := "failed",
               error := if msg ≠ "" then some msg else j.error }

/-- `render_final_video` (`app.py` lines 224-231): two status updates and
nothing else — no artifact is produced or recorded. -/
def render_final_video (j : KVJob) : KVJob :=
  let j1 := { j with status := "running", current_step := some "rendering_video" }
  { j1 with status := "succeeded", current_step := some "completed" }

/-- Tail of `process_all_scenes` (`app.py` lines 169-186): after all scene
events are processed (in completion order `events`), re-read the record and
call `render_final_video` only when `scenes_completed` reached the spec's
scene count. -/
def process_all_scenes (spec : StorySpec) (events : List SceneEvent) (j : KVJob) : KVJob :=
  let j1 := events.foldl applySceneEvent j
  if spec.scenes.length ≤ j1.scenes_completed then render_final_video j1 else j1

/-- The KV-backed scene pipeline started by `start_story_generation` on a
fresh record, with the per-scene completions arriving in order `events`. -/
def kv_scene_pipeline (fresh_id created_at : String) (req : StoryRequest)
    (spec : StorySpec) (events : List SceneEvent) : KVJob :=
  process_all_scenes spec events
    (start_story_generation_head spec (create_job_record fresh_id req created_at))

/-- Legacy in-memory `JobRecord` (`app.py` lines 96-102), the only kind of
record `job_download` consults (`JOBS` mapping). -/
structure JobRecord where
  job_id : String
  status : String
  error : Option String
  tmp_dir : Option String
  final_path : Option String
deriving Repr, DecidableEq

/-- Result of the job download endpoint `GET /v1/jobs/<job_id>/download`. -/
inductive DownloadResult where
  | notFound
  | notReady
  | stream (path : String) (filename : String)
deriving Repr, DecidableEq

/-- `job_download` (`app.py` lines 255-276): looks the id up in the legacy
in-memory `JOBS` mapping only; 404 if absent; 409 unless status is
`succeeded`, the final path is set (truthy) and the file exists; otherwise
streams the artifact with the job-id-derived filename. -/
def job_download (jobs : List (String × JobRecord)) (file_exists : String → Bool)
    (job_id : String) : DownloadResult :=
  match dictGet? jobs job_id with
  | none => .notFound
  | some job =>
      if job.status = "succeeded" then
        match job.final_path with
        | some p => if p ≠ "" && file_exists p then
                      .stream p ("social-story-" ++ job.job_id ++ ".mp4")
                    else .notReady
        | none => .notReady
      else .notReady

/-- Response of `POST /v1/social-story:start`. -/
inductive StartResponse where
  | httpError (code : Nat) (detail : String)
  | accepted (job_id : String) (status : String)
deriving Repr, DecidableEq

/-- Full effect of `start_job` (`app.py` lines 123-142): the HTTP response,
the KV record persisted (if any), and whether the pipeline task was
scheduled. -/
structure StartOutcome where
  response : StartResponse
  persisted : Option KVJob
  scheduled : Bool
deriving Repr, DecidableEq

/-- `start_job` (`app.py` lines 123-142): raise 500 when required API keys
are missing; then raise 400 when `situation` or `setting` is falsy;
otherwise create a fresh uuid, persist a `queued` record, schedule
`start_story_generation` and return the job id immediately. -/
def start_job (has_all_keys : Bool) (fresh_id created_at : String)
    (req : StoryRequest) : StartOutcome :=
  if ¬ has_all_keys then
    { response := .httpError 500 "Server configuration error: missing required API keys",
      persisted := none, scheduled := false }
  else if req.situation = "" ∨ req.setting = "" then
    { response := .httpError 400 "situation and setting are required",
      persisted := none, scheduled := false }
  else
    { response := .accepted fresh_id "queued",
      persisted := some (create_job_record fresh_id req created_at),
      scheduled := true }

/-- An HTTP response code in the client-error class. -/
def isClientErrorCode (code : Nat) : Prop := 400 ≤ code ∧ code < 500

instance (code : Nat) : Decidable (isClientErrorCode code) := by
  unfold isClientErrorCode; infer_instance

/-- Whether a `StartOutcome` is a client (4xx) validation failure. -/
def isClientError (o : StartOutcome) : Prop :=
  ∃ code detail, o.response = .httpError code detail ∧ isClientErrorCode code

/-! ## C4: local encoder invocation and its error propagation
(`media.py` `_run` lines 40-49; `api/social_story/orchestrator.py`
`node_render` lines 201-222) -/

/-- `_run` in `social_story/media.py`: a non-zero ffmpeg return code raises
`RuntimeError` whose text embeds the decoded stderr after the fixed prefix. -/
def ffmpeg_run (returncode : Int) (stderr : String) : Except String Unit :=
  if returncode ≠ 0 then .error ("FFmpeg failed: " ++ stderr) else .ok ()

/-- Sequential execution of the local strategy's ffmpeg invocations
(per-scene clips, concat, subtitle burn): the first raising step aborts. -/
def run_ffmpeg_steps : List (Except String Unit) → Except String Unit
  | [] => .ok ()
  | .ok () :: rest => run_ffmpeg_steps rest
  | .error m :: _ => .error m

/-- The message of the `RuntimeError` raised by the api `node_render` when
the local strategy fails (lines 219-222), verbatim from the source. -/
def LOCAL_RENDER_FAILURE_MSG : String :=
  "Both external render worker and local ffmpeg rendering failed. Please check the render worker service or run locally."

/-- The local-strategy block of the api `node_render` (lines 201-222): run
the ffmpeg steps; any exception is caught and replaced by the fixed
`RuntimeError` that propagates to the job record; on success the final
path is returned. -/
def node_render_local (steps : List (Except String Unit)) : Except String Unit :=
  match run_ffmpeg_steps steps with
  | .ok () => .ok ()
  | .error _ => .error LOCAL_RENDER_FAILURE_MSG

/-! ## C5: concatenation order of per-scene clips
(api `node_render` lines 201-218; `render_worker/app.py` `render`
lines 86-117) -/

/-- The key comparison of `sorted(state.spec.scenes, key=lambda s: s.id)`. -/
def sceneKeyLe (a b : Scene) : Prop := a.id ≤ b.id

instance : DecidableRel sceneKeyLe := by
  unfold sceneKeyLe; infer_instance

instance : IsTotal Scene sceneKeyLe :=
  ⟨fun a b => Int.le_total a.id b.id⟩

instance : IsTrans Scene sceneKeyLe :=
  ⟨fun _ _ _ hab hbc => le_trans hab hbc⟩

/-- Python's stable `sorted(scenes, key=lambda s: s.id)`. -/
def sortScenesById (scenes : List Scene) : List Scene :=
  List.insertionSort sceneKeyLe scenes

/-- The scene ids, in the order in which the local strategy of
`node_render` renders and concatenates the per-scene clips. -/
def localConcatIds (scenes : List Scene) : List Int :=
  (sortScenesById scenes).map Scene.id

/-- Python `dict` key insertion over the ids of the `scenes` form field, as
built by the render worker's `id_to_paths` loop: first occurrence fixes the
position, duplicates overwrite in place. -/
def pyDictKeys (ids : List Int) : List Int :=
  ids.foldl (fun acc k => if k ∈ acc then acc else acc ++ [k]) []

/-- The scene ids in the order the render worker renders and concatenates:
`for sid in sorted(id_to_paths.keys())` (`render_worker/app.py` line 88).
A scene meta is an `(id, duration_sec)` pair. -/
def workerConcatIds (metas : List (Int × Int)) : List Int :=
  List.insertionSort (fun a b : Int => a ≤ b) (pyDictKeys (metas.map Prod.fst))

/-! ## C6: asset stage coverage and artifact naming
(`social_story/orchestrator.py` `node_assets` lines 53-77,
`_scene_asset` lines 29-51) -/

/-- One scene's asset generation as performed by `_scene_asset`: the image
adapter is invoked with the scene's image prompt, the speech adapter with
its script, and the artifacts land at the deterministic id-keyed names. -/
structure AssetCall where
  scene_id : Int
  image_prompt : String
  script : String
  img_path : String
  audio_path : String
deriving Repr, DecidableEq

/-- `_scene_asset(scene, tmp_dir)` (`social_story/orchestrator.py`
lines 29-51). -/
def scene_asset (tmp_dir : String) (sc : Scene) : AssetCall :=
  { scene_id := sc.id, image_prompt := sc.image_prompt, script := sc.script,
    img_path := tmp_dir ++ "/scene_" ++ toString sc.id ++ ".png",
    audio_path := tmp_dir ++ "/scene_" ++ toString sc.id ++ ".mp3" }

/-- `max_scenes = min(total_scenes, 2) if serverless else total_scenes`
(`node_assets` line 58). -/
def node_assets_max_scenes (serverless : Bool) (total_scenes : Nat) : Nat :=
  if serverless then min total_scenes 2 else total_scenes

/-- The asset calls issued by `node_assets` (lines 53-77): one
`_scene_asset` per scene of `state.spec.scenes[:max_scenes]`, in order. -/
def node_assets_calls (serverless : Bool) (tmp_dir : String)
    (scenes : List Scene) : List AssetCall :=
  (scenes.take (node_assets_max_scenes serverless scenes.length)).map
    (scene_asset tmp_dir)

/-! ## C9: speech adapter retry loop
(`elevenlabs_client.py` `tts_to_bytes` lines 19-51) -/

/-- What one POST to the text-to-speech endpoint produces: the response
content (success), an `HTTPStatusError` of the given status raised by
`raise_for_status`, or any other exception (network, timeout, ...). -/
inductive TtsResp where
  | ok (content : String)
  | httpError (status : Nat)
  | otherError (msg : String)
deriving Repr, DecidableEq

/-- How `tts_to_bytes` terminates: returning content, or raising the stated
exception. -/
inductive TtsOutcome where
  | success (content : String)
  | raised (e : TtsResp)
deriving Repr, DecidableEq

/-- The `for attempt in range(max_retries + 1)` loop of `tts_to_bytes`,
driven by an oracle giving each attempt's response. `remaining` is the
number of retries still available (`max_retries - attempt`). Returns
(number of requests issued in total, the backoff waits performed, outcome).
Only a 429 `HTTPStatusError` with budget left sleeps `2 ^ attempt` seconds
and loops; every other exception, and 429 with the budget exhausted,
raises. -/
def tts_loop (oracle : Nat → TtsResp) : Nat → Nat → Nat × List Nat × TtsOutcome
  | remaining, attempt =>
    match oracle attempt with
    | .ok c => (attempt + 1, [], .success c)
    | .otherError m => (attempt + 1, [], .raised (.otherError m))
    | .httpError s =>
        if s = 429 then
          match remaining with
          | 0 => (attempt + 1, [], .raised (.httpError s))
          | r + 1 =>
              let next := tts_loop oracle r (attempt + 1)
              (next.1, 2 ^ attempt :: next.2.1, next.2.2)
        else (attempt + 1, [], .raised (.httpError s))

/-- `tts_to_bytes(text, max_retries)`: run the loop from attempt 0 with the
full retry budget. -/
def tts_to_bytes (oracle : Nat → TtsResp) (max_retries : Nat) :
    Nat × List Nat × TtsOutcome :=
  tts_loop oracle max_retries 0

/-! ## C10: KV job-state update is a field-level merge
(`kv_storage.py` `KVStorage.update_job_status` lines 77-92) -/

/-- A JSON-ish value stored in a job dict (dicts and lists are kept as
their serialized text — the merge semantics do not inspect them). -/
inductive PyVal where
  | vnone
  | vstr (s : String)
  | vint (n : Int)
  | vjson (s : String)
deriving Repr, DecidableEq

/-- A stored job record: the Python dict under the `job:<id>` key. -/
abbrev JobDict : Type := List (String × PyVal)

/-- The whole KV store, keyed by `job:<id>`. -/
abbrev KVStore : Type := List (String × JobDict)

/-- `KVStorage.update_job_status` (`kv_storage.py` lines 77-92): fetch the
latest stored record (a falsy result aborts the update); set `status`; set
`error` only when the `error` argument is truthy; assign each kwarg; store
the merged record back under the same key. -/
def update_job_status (store : KVStore) (job_id : String) (status : String)
    (error : Option String) (kwargs : List (String × PyVal)) : KVStore :=
  match dictGet? store ("job:" ++ job_id) with
  | none => store
  | some jd =>
      if jd.isEmpty then store
      else
        let d1 := dictSet jd "status" (.vstr status)
        let d2 := match error with
          | some e => if e ≠ "" then dictSet d1 "error" (.vstr e) else d1
          | none => d1
        let d3 := kwargs.foldl (fun acc p => dictSet acc p.1 p.2) d2
        dictSet store ("job:" ++ job_id) d3

/-! ## Concrete fixtures for witnesses and counterexamples -/

/-- A concrete scene with the given id. -/
def testScene (i : Int) : Scene :=
  { id := i, goal := "stay calm", script := "We walk in slowly.",
    on_screen_text := "We walk in slowly.", image_prompt := "a calm classroom",
    duration_sec := 4, audio_ssml := "<speak>We walk in slowly.</speak>" }

/-- A concrete valid story request. -/
def testReq : StoryRequest :=
  { age := 6, reading_level := "early_reader",
    diagnosis_summary := "autism; prefers routine",
    situation := "first day of school", setting := "classroom",
    words_to_avoid := [], voice_preset := "calm_childlike_female" }

/-- A concrete story spec over the given scene ids. -/
def testSpec (ids : List Int) : StorySpec :=
  { meta := "", scenes := ids.map testScene,
    closing_affirmation := "You did great.",
    srt := "1\n00:00:00,000 --> 00:00:04,000\nWe walk in slowly.\n" }

/-- A concrete legacy in-memory job record in the `succeeded` state. -/
def testJobRec : JobRecord :=
  { job_id := "a", status := "succeeded", error := none,
    tmp_dir := some "/tmp/social-story/a",
    final_path := some "/tmp/social-story/a/final.mp4" }

/-! # Theorems -/

/-! ## Shared dictionary lemmas -/

theorem dictGet_dictSet {V : Type} (d : List (String × V)) (k k' : String) (v : V) :
    dictGet? (dictSet d k v) k' = if k = k' then some v else dictGet? d k' := by
  induction d with
  | nil =>
      by_cases h : k = k' <;> simp [dictSet, dictGet?, h]
  | cons p rest ih =>
      obtain ⟨pk, pv⟩ := p
      by_cases hp : pk = k
      · subst hp
        by_cases h : pk = k' <;> simp [dictSet, dictGet?, h]
      · by_cases h : pk = k'
        · subst h
          have hkk : ¬ k = pk := fun hh => hp hh.symm
          simp [dictSet, dictGet?, hp, hkk]
        · simp [dictSet, dictGet?, hp, h, ih]

/-! ## C1 -/

/-- C1 fails as stated: the code rejects a worker response only when its
status is at least 400, not on every non-2xx status. A 301 response
declaring `video/mp4` with a large body is non-2xx, yet `node_render`
accepts it as the final artifact and never enters the local fallback. -/
theorem c1_non2xx_counterexample :
    ¬ is2xx 301 ∧
      node_render_remote { status_code := 301, content_type := "video/mp4", body_size := 4096 } =
        { remote_attempts := 1, local_attempts := 0, source := RenderSource.remote } := by
  constructor
  · decide
  · decide

/-- C1 (amended): for every remote-worker response with status at least
400, or whose lowercased content type does not contain `video/mp4`, or
whose body size is at most 1024 bytes, the remote result is rejected and
the local ffmpeg strategy is entered exactly once, with exactly one request
to the remote worker (no retry); in particular a 200 response with a tiny
body is never accepted. -/
theorem c1_rejected_response_falls_back_once (r : WorkerResponse)
    (h : 400 ≤ r.status_code ∨ pyIn "video/mp4" (pyLower r.content_type) = false ∨
         r.body_size ≤ 1024) :
    node_render_remote r =
      { remote_attempts := 1, local_attempts := 1, source := RenderSource.localFallback } := by
  have hrej : workerResponseRejected r = true := by
    unfold workerResponseRejected
    rcases h with h | h | h <;> simp [h]
  simp [node_render_remote, hrej]

/-- Witness for C1: a 200 response with a 100-byte body falls back. -/
theorem c1_rejected_response_falls_back_once_witness :
    node_render_remote { status_code := 200, content_type := "video/mp4", body_size := 100 } =
      { remote_attempts := 1, local_attempts := 1, source := RenderSource.localFallback } :=
  c1_rejected_response_falls_back_once
    { status_code := 200, content_type := "video/mp4", body_size := 100 }
    (Or.inr (Or.inr (by decide)))

/-! ## C2 -/

theorem fold_applySceneEvent_final_path (events : List SceneEvent) (j : KVJob) :
    (events.foldl applySceneEvent j).final_path = j.final_path := by
  induction events generalizing j with
  | nil => rfl
  | cons e es ih =>
      cases e <;> simp [List.foldl_cons, applySceneEvent, ih]

theorem fold_applySceneEvent_status_ne_succeeded (events : List SceneEvent) (j : KVJob)
    (h : j.status ≠ "succeeded") :
    (events.foldl applySceneEvent j).status ≠ "succeeded" := by
  induction events generalizing j with
  | nil => exact h
  | cons e es ih =>
      cases e with
      | success sid => exact ih _ (by simp [applySceneEvent])
      | failure sid msg => exact ih _ (by simp [applySceneEvent])

theorem fold_applySceneEvent_completed (events : List SceneEvent) (j : KVJob) :
    (events.foldl applySceneEvent j).scenes_completed =
      j.scenes_completed + events.countP isSuccessEvent := by
  induction events generalizing j with
  | nil => simp
  | cons e es ih =>
      cases e with
      | success sid =>
          simp [List.foldl_cons, applySceneEvent, ih, List.countP_cons, isSuccessEvent]
          omega
      | failure sid msg =>
          simp [List.foldl_cons, applySceneEvent, ih, List.countP_cons, isSuccessEvent]

theorem fold_applySceneEvent_error (events : List SceneEvent) (j : KVJob) :
    (events.foldl applySceneEvent j).error = j.error ∨
      ∃ sid msg, SceneEvent.failure sid msg ∈ events ∧
        (events.foldl applySceneEvent j).error = some msg := by
  induction events generalizing j with
  | nil => exact Or.inl rfl
  | cons e es ih =>
      cases e with
      | success sid =>
          rcases ih (applySceneEvent j (.success sid)) with h | ⟨s, m, hm, he⟩
          · exact Or.inl (by simpa [applySceneEvent] using h)
          · exact Or.inr ⟨s, m, List.mem_cons_of_mem _ hm, he⟩
      | failure sid msg =>
          rcases ih (applySceneEvent j (.failure sid msg)) with h | ⟨s, m, hm, he⟩
          · by_cases hmsg : msg = ""
            · subst hmsg
              exact Or.inl (by simpa [applySceneEvent] using h)
            · refine Or.inr ⟨sid, msg, List.mem_cons_self _ _, ?_⟩
              simpa [applySceneEvent, hmsg] using h
          · exact Or.inr ⟨s, m, List.mem_cons_of_mem _ hm, he⟩

/-- C2 fails as stated: with scenes 1,2,3 and completion order
(scene 1 succeeds, scene 2's asset generation raises "boom", scene 3
succeeds), the job record ends with status `running` — scene 3's success
update overwrites the `failed` status — and its error text is the verbatim
exception text `boom`, which does not name scene 2. -/
theorem c2_error_names_scene_counterexample :
    (kv_scene_pipeline "j1" "0" testReq (testSpec [1, 2, 3])
        [.success 1, .failure 2 "boom", .success 3]).status = "running" ∧
    (kv_scene_pipeline "j1" "0" testReq (testSpec [1, 2, 3])
        [.success 1, .failure 2 "boom", .success 3]).error = some "boom" ∧
    ¬ ((toString (2 : Int)).toList <:+: "boom".toList) := by
  refine ⟨by decide, by decide, by decide⟩

/-- C2 (amended): in the KV-backed flow, when each scene produces exactly
one completion event and at least one scene's asset generation raises, the
job never reaches `succeeded`, no final artifact is recorded (no partial
result is exposed), and the recorded error — when one is recorded — is
verbatim the raised exception text of one of the failing scenes, which need
not mention that scene's id; the `failed` status itself can be overwritten
back to `running` by a later scene's success update. -/
theorem c2_scene_failure_aborts_job (fid cat : String) (req : StoryRequest)
    (spec : StorySpec) (events : List SceneEvent)
    (hlen : events.length = spec.scenes.length)
    (hfail : ∃ sid msg, SceneEvent.failure sid msg ∈ events) :
    (kv_scene_pipeline fid cat req spec events).status ≠ "succeeded" ∧
    (kv_scene_pipeline fid cat req spec events).final_path = none ∧
    ((kv_scene_pipeline fid cat req spec events).error = none ∨
      ∃ sid msg, SceneEvent.failure sid msg ∈ events ∧
        (kv_scene_pipeline fid cat req spec events).error = some msg) := by
  obtain ⟨fsid, fmsg, hmem⟩ := hfail
  set j0 := start_story_generation_head spec (create_job_record fid req cat) with hj0
  have hcount : events.countP isSuccessEvent < events.length := by
    refine lt_of_le_of_ne (List.countP_le_length _) ?_
    intro heq
    have hall := List.countP_eq_length.mp heq
    have := hall _ hmem
    simp [isSuccessEvent] at this
  have hcompleted : (events.foldl applySceneEvent j0).scenes_completed <
      spec.scenes.length := by
    rw [fold_applySceneEvent_completed]
    have hz : j0.scenes_completed = 0 := rfl
    rw [hz]
    omega
  have hpipe : kv_scene_pipeline fid cat req spec events =
      events.foldl applySceneEvent j0 := by
    unfold kv_scene_pipeline process_all_scenes
    rw [← hj0]
    simp only [if_neg (by omega : ¬ spec.scenes.length ≤
      (events.foldl applySceneEvent j0).scenes_completed)]
  rw [hpipe]
  refine ⟨?_, ?_, ?_⟩
  · have hst : j0.status = "running" := rfl
    exact fold_applySceneEvent_status_ne_succeeded events j0 (by rw [hst]; decide)
  · rw [fold_applySceneEvent_final_path]; rfl
  · have := fold_applySceneEvent_error events j0
    rcases this with h | ⟨s, m, hm, he⟩
    · exact Or.inl (by rw [h]; rfl)
    · exact Or.inr ⟨s, m, hm, he⟩

/-- Witness for C2 (amended): two scenes, scene 1 fails with "whoops",
scene 2 succeeds afterwards. -/
theorem c2_scene_failure_aborts_job_witness :
    (kv_scene_pipeline "w" "0" testReq (testSpec [1, 2])
        [.failure 1 "whoops", .success 2]).status ≠ "succeeded" ∧
    (kv_scene_pipeline "w" "0" testReq (testSpec [1, 2])
        [.failure 1 "whoops", .success 2]).final_path = none ∧
    ((kv_scene_pipeline "w" "0" testReq (testSpec [1, 2])
        [.failure 1 "whoops", .success 2]).error = none ∨
      ∃ sid msg, SceneEvent.failure sid msg ∈
          ([.failure 1 "whoops", .success 2] : List SceneEvent) ∧
        (kv_scene_pipeline "w" "0" testReq (testSpec [1, 2])
            [.failure 1 "whoops", .success 2]).error = some msg) :=
  c2_scene_failure_aborts_job "w" "0" testReq (testSpec [1, 2])
    [.failure 1 "whoops", .success 2] (by decide)
    ⟨1, "whoops", by decide⟩

/-! ## C3 -/

/-- C3: `render_final_video` only flips the status to `succeeded` (via
`current_step` updates) and records no artifact — every other field,
including `final_path`, is untouched — and `job_download` consults only the
legacy in-memory `JOBS` mapping, so any job id absent from `JOBS` (in
particular a KV-only job that reached `succeeded` this way) always gets a
404 from the download endpoint. -/
theorem c3_kv_succeeded_job_not_downloadable (j : KVJob)
    (jobs : List (String × JobRecord)) (file_exists : String → Bool) (job_id : String)
    (habsent : dictGet? jobs job_id = none) :
    (render_final_video j).status = "succeeded" ∧
    (render_final_video j).current_step = some "completed" ∧
    (render_final_video j).final_path = j.final_path ∧
    (render_final_video j).error = j.error ∧
    (render_final_video j).scenes_completed = j.scenes_completed ∧
    (render_final_video j).total_scenes = j.total_scenes ∧
    (render_final_video j).job_id = j.job_id ∧
    (render_final_video j).request = j.request ∧
    (render_final_video j).spec = j.spec ∧
    job_download jobs file_exists job_id = DownloadResult.notFound := by
  refine ⟨rfl, rfl, rfl, rfl, rfl, rfl, rfl, rfl, rfl, ?_⟩
  unfold job_download
  rw [habsent]

/-- Witness for C3: a concrete KV job marked succeeded by
`render_final_video`, whose id is not in the legacy `JOBS` mapping. -/
theorem c3_kv_succeeded_job_not_downloadable_witness :
    (render_final_video (start_story_generation_head (testSpec [1])
        (create_job_record "kvjob" testReq "0"))).status = "succeeded" ∧
    (render_final_video (start_story_generation_head (testSpec [1])
        (create_job_record "kvjob" testReq "0"))).current_step = some "completed" ∧
    (render_final_video (start_story_generation_head (testSpec [1])
        (create_job_record "kvjob" testReq "0"))).final_path =
      (start_story_generation_head (testSpec [1])
        (create_job_record "kvjob" testReq "0")).final_path ∧
    (render_final_video (start_story_generation_head (testSpec [1])
        (create_job_record "kvjob" testReq "0"))).error =
      (start_story_generation_head (testSpec [1])
        (create_job_record "kvjob" testReq "0")).error ∧
    (render_final_video (start_story_generation_head (testSpec [1])
        (create_job_record "kvjob" testReq "0"))).scenes_completed =
      (start_story_generation_head (testSpec [1])
        (create_job_record "kvjob" testReq "0")).scenes_completed ∧
    (render_final_video (start_story_generation_head (testSpec [1])
        (create_job_record "kvjob" testReq "0"))).total_scenes =
      (start_story_generation_head (testSpec [1])
        (create_job_record "kvjob" testReq "0")).total_scenes ∧
    (render_final_video (start_story_generation_head (testSpec [1])
        (create_job_record "kvjob" testReq "0"))).job_id =
      (start_story_generation_head (testSpec [1])
        (create_job_record "kvjob" testReq "0")).job_id ∧
    (render_final_video (start_story_generation_head (testSpec [1])
        (create_job_record "kvjob" testReq "0"))).request =
      (start_story_generation_head (testSpec [1])
        (create_job_record "kvjob" testReq "0")).request ∧
    (render_final_video (start_story_generation_head (testSpec [1])
        (create_job_record "kvjob" testReq "0"))).spec =
      (start_story_generation_head (testSpec [1])
        (create_job_record "kvjob" testReq "0")).spec ∧
    job_download [("a", testJobRec)] (fun _ => true) "kvjob" = DownloadResult.notFound :=
  c3_kv_succeeded_job_not_downloadable
    (start_story_generation_head (testSpec [1]) (create_job_record "kvjob" testReq "0"))
    [("a", testJobRec)] (fun _ => true) "kvjob" (by decide)

/-! ## C4 -/

set_option maxRecDepth 4000 in
/-- C4 fails as stated: an encoder exit code 1 with stderr
`bad pixel format` raises `FFmpeg failed: bad pixel format` inside `_run`,
but the api `node_render` catches it and raises its fixed message instead,
so the error reaching the job record does not contain the encoder's stderr
at all. -/
theorem c4_stderr_not_propagated_counterexample :
    ffmpeg_run 1 "bad pixel format" = Except.error "FFmpeg failed: bad pixel format" ∧
    node_render_local [ffmpeg_run 1 "bad pixel format"] =
      Except.error LOCAL_RENDER_FAILURE_MSG ∧
    ¬ ("bad pixel format".toList <:+: LOCAL_RENDER_FAILURE_MSG.toList) := by
  refine ⟨rfl, rfl, by decide⟩

/-- C4 (amended): a non-zero encoder exit raises an error embedding the
encoder's stderr verbatim after the fixed `FFmpeg failed: ` prefix, and any
failure among the local strategy's ffmpeg invocations is fatal — the api
`node_render` raises (no further fallback) — but the error that propagates
to the job record is the fixed combined-failure message, not the encoder's
stderr (the stderr reaches only the logs). -/
theorem c4_local_encoder_failure_fatal (rc : Int) (stderr : String)
    (steps : List (Except String Unit)) (m : String) :
    (rc ≠ 0 → ffmpeg_run rc stderr = Except.error ("FFmpeg failed: " ++ stderr)) ∧
    (run_ffmpeg_steps steps = Except.error m →
      node_render_local steps = Except.error LOCAL_RENDER_FAILURE_MSG) := by
  constructor
  · intro h
    simp [ffmpeg_run, h]
  · intro h
    unfold node_render_local
    rw [h]

/-- Witness for C4 (amended) at exit code 1 with stderr `x`. -/
theorem c4_local_encoder_failure_fatal_witness :
    ffmpeg_run 1 "x" = Except.error "FFmpeg failed: x" ∧
    node_render_local [Except.error "x"] = Except.error LOCAL_RENDER_FAILURE_MSG :=
  ⟨(c4_local_encoder_failure_fatal 1 "x" [Except.error "x"] "x").1 (by decide),
   (c4_local_encoder_failure_fatal 1 "x" [Except.error "x"] "x").2 rfl⟩

/-! ## C5 -/

theorem pyDictKeys_foldl_mem (l acc : List Int) (x : Int) :
    x ∈ l.foldl (fun acc k => if k ∈ acc then acc else acc ++ [k]) acc ↔
      x ∈ acc ∨ x ∈ l := by
  induction l generalizing acc with
  | nil => simp
  | cons a l ih =>
      rw [List.foldl_cons, ih]
      by_cases h : a ∈ acc
      · simp only [if_pos h, List.mem_cons]
        constructor
        · rintro (hx | hx)
          · exact Or.inl hx
          · exact Or.inr (Or.inr hx)
        · rintro (hx | hx | hx)
          · exact Or.inl hx
          · exact Or.inl (hx ▸ h)
          · exact Or.inr hx
      · simp only [if_neg h, List.mem_append, List.mem_singleton, List.mem_cons]
        tauto

theorem pyDictKeys_foldl_nodup (l acc : List Int) (hacc : acc.Nodup) :
    (l.foldl (fun acc k => if k ∈ acc then acc else acc ++ [k]) acc).Nodup := by
  induction l generalizing acc with
  | nil => exact hacc
  | cons a l ih =>
      rw [List.foldl_cons]
      by_cases h : a ∈ acc
      · rw [if_pos h]; exact ih acc hacc
      · rw [if_neg h]
        refine ih _ ?_
        simp [List.nodup_append, hacc, h]

theorem pyDictKeys_mem (ids : List Int) (x : Int) :
    x ∈ pyDictKeys ids ↔ x ∈ ids := by
  unfold pyDictKeys
  rw [pyDictKeys_foldl_mem]
  simp

theorem pyDictKeys_nodup (ids : List Int) : (pyDictKeys ids).Nodup :=
  pyDictKeys_foldl_nodup ids [] (by simp)

/-- C5: both rendering strategies concatenate per-scene clips in ascending
scene-id order, independent of the order the scenes (or the worker's scene
metas) arrive in: the local strategy's clip order is a sorted permutation
of the spec's scene ids, the worker's clip order is sorted and covers
exactly the ids of the uploaded scene metas, and permuting the input leaves
either order unchanged. -/
theorem c5_concat_order_ascending_by_id (scenes scenes' : List Scene)
    (metas metas' : List (Int × Int))
    (hs : scenes.Perm scenes') (hm : metas.Perm metas') :
    (localConcatIds scenes).Sorted (· ≤ ·) ∧
    (localConcatIds scenes).Perm (scenes.map Scene.id) ∧
    localConcatIds scenes = localConcatIds scenes' ∧
    (workerConcatIds metas).Sorted (· ≤ ·) ∧
    (∀ i : Int, i ∈ workerConcatIds metas ↔ i ∈ metas.map Prod.fst) ∧
    workerConcatIds metas = workerConcatIds metas' := by
  have hsorted : ∀ sc : List Scene, (localConcatIds sc).Sorted (· ≤ ·) := by
    intro sc
    have h := List.sorted_insertionSort sceneKeyLe sc
    exact List.Pairwise.map Scene.id (fun a b hab => hab) h
  have hperm : ∀ sc : List Scene, (localConcatIds sc).Perm (sc.map Scene.id) :=
    fun sc => (List.perm_insertionSort sceneKeyLe sc).map Scene.id
  have hloc_eq : localConcatIds scenes = localConcatIds scenes' := by
    refine List.eq_of_perm_of_sorted ?_ (hsorted scenes) (hsorted scenes')
    exact ((hperm scenes).trans (hs.map Scene.id)).trans (hperm scenes').symm
  have hwsorted : ∀ ms : List (Int × Int), (workerConcatIds ms).Sorted (· ≤ ·) :=
    fun ms => List.sorted_insertionSort _ _
  have hwmem : ∀ (ms : List (Int × Int)) (i : Int),
      i ∈ workerConcatIds ms ↔ i ∈ ms.map Prod.fst := by
    intro ms i
    unfold workerConcatIds
    rw [(List.perm_insertionSort _ _).mem_iff, pyDictKeys_mem]
  have hw_eq : workerConcatIds metas = workerConcatIds metas' := by
    refine List.eq_of_perm_of_sorted ?_ (hwsorted metas) (hwsorted metas')
    unfold workerConcatIds
    refine ((List.perm_insertionSort _ _).trans ?_).trans
      (List.perm_insertionSort _ _).symm
    rw [List.perm_ext_iff_of_nodup (pyDictKeys_nodup _) (pyDictKeys_nodup _)]
    intro a
    rw [pyDictKeys_mem, pyDictKeys_mem, (hm.map Prod.fst).mem_iff]
  exact ⟨hsorted scenes, hperm scenes, hloc_eq, hwsorted metas, hwmem metas, hw_eq⟩

/-- Witness for C5 at scene ids arriving as 3,1,2 (and a permutation),
instantiating the membership clause at id 3. -/
theorem c5_concat_order_ascending_by_id_witness :
    (localConcatIds [testScene 3, testScene 1, testScene 2]).Sorted (· ≤ ·) ∧
    (localConcatIds [testScene 3, testScene 1, testScene 2]).Perm
      ([testScene 3, testScene 1, testScene 2].map Scene.id) ∧
    localConcatIds [testScene 3, testScene 1, testScene 2] =
      localConcatIds [testScene 1, testScene 2, testScene 3] ∧
    (workerConcatIds [(3, 4), (1, 4), (2, 4)]).Sorted (· ≤ ·) ∧
    (3 ∈ workerConcatIds [(3, 4), (1, 4), (2, 4)] ↔
      3 ∈ ([(3, 4), (1, 4), (2, 4)] : List (Int × Int)).map Prod.fst) ∧
    workerConcatIds [(3, 4), (1, 4), (2, 4)] =
      workerConcatIds [(2, 4), (1, 4), (3, 4)] := by
  have h := c5_concat_order_ascending_by_id
    [testScene 3, testScene 1, testScene 2] [testScene 1, testScene 2, testScene 3]
    [(3, 4), (1, 4), (2, 4)] [(2, 4), (1, 4), (3, 4)]
    (by decide) (by decide)
  exact ⟨h.1, h.2.1, h.2.2.1, h.2.2.2.1, h.2.2.2.2.1 3, h.2.2.2.2.2⟩

/-! ## C6 -/

/-- C6 fails as stated: with the serverless environment detected and a
three-scene spec, `node_assets` processes only `scenes[:2]` — scene 3 gets
no adapter invocation and no artifacts at all. -/
theorem c6_serverless_cap_counterexample :
    (node_assets_calls true "/tmp/j" [testScene 1, testScene 2, testScene 3]).map
        AssetCall.scene_id = [1, 2] ∧
    (3 : Int) ∉ (node_assets_calls true "/tmp/j"
        [testScene 1, testScene 2, testScene 3]).map AssetCall.scene_id := by
  refine ⟨by decide, by decide⟩

/-- C6 (amended): the asset stage invokes the image adapter (with the
scene's image prompt) and the speech adapter (with its script) and writes
`scene_<id>.png` / `scene_<id>.mp3` into the working directory for every
scene of `scenes[:max_scenes]`, where `max_scenes` is the full scene count
unless a serverless environment is detected, in which case at most the
first two scenes are processed; in the non-serverless case this is every
scene of the spec. -/
theorem c6_assets_cover_processed_scenes (serverless : Bool) (d : String)
    (scenes : List Scene) :
    (serverless = false →
      node_assets_calls serverless d scenes = scenes.map (scene_asset d)) ∧
    (∀ sc ∈ scenes.take (node_assets_max_scenes serverless scenes.length),
      ({ scene_id := sc.id, image_prompt := sc.image_prompt, script := sc.script,
         img_path := d ++ "/scene_" ++ toString sc.id ++ ".png",
         audio_path := d ++ "/scene_" ++ toString sc.id ++ ".mp3" } : AssetCall) ∈
        node_assets_calls serverless d scenes) := by
  constructor
  · intro h
    subst h
    unfold node_assets_calls node_assets_max_scenes
    simp [List.take_length]
  · intro sc hsc
    exact List.mem_map_of_mem (scene_asset d) hsc

/-- Witness for C6 (amended): two scenes, non-serverless. -/
theorem c6_assets_cover_processed_scenes_witness :
    node_assets_calls false "/tmp/j" [testScene 1, testScene 2] =
      [testScene 1, testScene 2].map (scene_asset "/tmp/j") ∧
    scene_asset "/tmp/j" (testScene 2) ∈
      node_assets_calls false "/tmp/j" [testScene 1, testScene 2] :=
  ⟨(c6_assets_cover_processed_scenes false "/tmp/j" [testScene 1, testScene 2]).1 rfl,
   (c6_assets_cover_processed_scenes false "/tmp/j" [testScene 1, testScene 2]).2
     (testScene 2) (by decide)⟩

/-! ## C7 -/

/-- C7 fails as stated: when the required API keys are missing, a request
with an empty `situation` is rejected with the 500 configuration error
(checked first), not with a client 4xx validation error. -/
theorem c7_missing_keys_counterexample :
    ({ testReq with situation := "" } : StoryRequest).situation = "" ∧
    (start_job false "j" "0" { testReq with situation := "" }).response =
      StartResponse.httpError 500
        "Server configuration error: missing required API keys" ∧
    ¬ isClientError (start_job false "j" "0" { testReq with situation := "" }) := by
  refine ⟨rfl, rfl, ?_⟩
  rintro ⟨code, detail, heq, hc⟩
  rw [show (start_job false "j" "0" { testReq with situation := "" }).response =
      StartResponse.httpError 500
        "Server configuration error: missing required API keys" from rfl] at heq
  cases heq
  exact absurd hc (by decide)

/-- C7 (amended): provided the required API keys are configured, submission
fails with a client (4xx) validation error if and only if `situation` or
`setting` is empty; otherwise it persists a fresh record with status
`queued`, schedules the pipeline and returns the job id immediately. When
the keys are missing, submission fails with a 500 configuration error
before any validation. -/
theorem c7_start_job_validation (fid cat : String) (req : StoryRequest) :
    (isClientError (start_job true fid cat req) ↔
      (req.situation = "" ∨ req.setting = "")) ∧
    (req.situation ≠ "" → req.setting ≠ "" →
      start_job true fid cat req =
        { response := .accepted fid "queued",
          persisted := some (create_job_record fid req cat),
          scheduled := true }) ∧
    (create_job_record fid req cat).status = "queued" ∧
    (start_job false fid cat req).response =
      .httpError 500 "Server configuration error: missing required API keys" := by
  refine ⟨?_, ?_, rfl, rfl⟩
  · by_cases hsit : req.situation = ""
    · constructor
      · intro _; exact Or.inl hsit
      · intro _
        refine ⟨400, "situation and setting are required", ?_, by decide⟩
        simp [start_job, hsit]
    · by_cases hset : req.setting = ""
      · constructor
        · intro _; exact Or.inr hset
        · intro _
          refine ⟨400, "situation and setting are required", ?_, by decide⟩
          simp [start_job, hsit, hset]
      · constructor
        · rintro ⟨code, detail, heq, hc⟩
          rw [show (start_job true fid cat req).response = .accepted fid "queued" by
            simp [start_job, hsit, hset]] at heq
          cases heq
        · rintro (h | h)
          · exact absurd h hsit
          · exact absurd h hset
  · intro h1 h2
    simp [start_job, h1, h2]

/-- Witness for C7 (amended) at a concrete valid request. -/
theorem c7_start_job_validation_witness :
    ¬ isClientError (start_job true "jid" "0" testReq) ∧
    start_job true "jid" "0" testReq =
      { response := .accepted "jid" "queued",
        persisted := some (create_job_record "jid" testReq "0"),
        scheduled := true } ∧
    (create_job_record "jid" testReq "0").status = "queued" :=
  ⟨fun hc => absurd ((c7_start_job_validation "jid" "0" testReq).1.mp hc) (by decide),
   (c7_start_job_validation "jid" "0" testReq).2.1 (by decide) (by decide),
   (c7_start_job_validation "jid" "0" testReq).2.2.1⟩

/-! ## C8 -/

/-- C8: the download endpoint 404s exactly when the job id is unknown to
the registry it consults, 409s whenever the record's status is not
`succeeded` or its final path is absent (unset or empty) or the file does
not exist, and streams the artifact (with the job-id-derived filename) only
for a succeeded job whose artifact path is set and exists. -/
theorem c8_download_gating (jobs : List (String × JobRecord))
    (file_exists : String → Bool) (job_id : String) :
    (dictGet? jobs job_id = none →
      job_download jobs file_exists job_id = DownloadResult.notFound) ∧
    (∀ j, dictGet? jobs job_id = some j → j.status ≠ "succeeded" →
      job_download jobs file_exists job_id = DownloadResult.notReady) ∧
    (∀ j, dictGet? jobs job_id = some j → j.final_path = none →
      job_download jobs file_exists job_id = DownloadResult.notReady) ∧
    (∀ j, dictGet? jobs job_id = some j → j.final_path = some "" →
      job_download jobs file_exists job_id = DownloadResult.notReady) ∧
    (∀ j p, dictGet? jobs job_id = some j → j.final_path = some p →
      file_exists p = false →
      job_download jobs file_exists job_id = DownloadResult.notReady) ∧
    (∀ j p, dictGet? jobs job_id = some j → j.status = "succeeded" →
      j.final_path = some p → p ≠ "" → file_exists p = true →
      job_download jobs file_exists job_id =
        DownloadResult.stream p ("social-story-" ++ j.job_id ++ ".mp4")) := by
  refine ⟨?_, ?_, ?_, ?_, ?_, ?_⟩
  · intro h
    simp [job_download, h]
  · intro j h hne
    simp [job_download, h, hne]
  · intro j h hfp
    by_cases hs : j.status = "succeeded" <;> simp [job_download, h, hs, hfp]
  · intro j h hfp
    by_cases hs : j.status = "succeeded" <;> simp [job_download, h, hs, hfp]
  · intro j p h hfp hfe
    by_cases hs : j.status = "succeeded" <;> simp [job_download, h, hs, hfp, hfe]
  · intro j p h hs hfp hp hfe
    simp [job_download, h, hs, hfp, hp, hfe]

/-- Witness for C8: a two-entry scenario — an unknown id 404s, a succeeded
record with an existing artifact streams. -/
theorem c8_download_gating_witness :
    job_download [("a", testJobRec)] (fun _ => true) "b" = DownloadResult.notFound ∧
    job_download [("a", testJobRec)] (fun _ => true) "a" =
      DownloadResult.stream "/tmp/social-story/a/final.mp4"
        ("social-story-" ++ testJobRec.job_id ++ ".mp4") :=
  ⟨(c8_download_gating [("a", testJobRec)] (fun _ => true) "b").1 (by decide),
   (c8_download_gating [("a", testJobRec)] (fun _ => true) "a").2.2.2.2.2
     testJobRec "/tmp/social-story/a/final.mp4" (by decide) rfl rfl (by decide) rfl⟩

/-! ## C9 -/

theorem tts_loop_ok (o : Nat → TtsResp) (rem att : Nat) (c : String) (h : o att = .ok c) :
    tts_loop o rem att = (att + 1, [], .success c) := by
  conv_lhs => rw [tts_loop]
  rw [h]

theorem tts_loop_other (o : Nat → TtsResp) (rem att : Nat) (m : String)
    (h : o att = .otherError m) :
    tts_loop o rem att = (att + 1, [], .raised (.otherError m)) := by
  conv_lhs => rw [tts_loop]
  rw [h]

theorem tts_loop_http_ne (o : Nat → TtsResp) (rem att s : Nat)
    (h : o att = .httpError s) (hs : s ≠ 429) :
    tts_loop o rem att = (att + 1, [], .raised (.httpError s)) := by
  conv_lhs => rw [tts_loop]
  rw [h]
  simp [hs]

theorem tts_loop_429_zero (o : Nat → TtsResp) (att : Nat) (h : o att = .httpError 429) :
    tts_loop o 0 att = (att + 1, [], .raised (.httpError 429)) := by
  conv_lhs => rw [tts_loop]
  rw [h]
  simp

theorem tts_loop_429_succ (o : Nat → TtsResp) (r att : Nat) (h : o att = .httpError 429) :
    tts_loop o (r + 1) att =
      ((tts_loop o r (att + 1)).1, 2 ^ att :: (tts_loop o r (att + 1)).2.1,
        (tts_loop o r (att + 1)).2.2) := by
  conv_lhs => rw [tts_loop]
  rw [h]
  simp

theorem tts_loop_ge (o : Nat → TtsResp) (rem : Nat) :
    ∀ att, att + 1 ≤ (tts_loop o rem att).1 := by
  induction rem with
  | zero =>
      intro att
      cases h : o att with
      | ok c => rw [tts_loop_ok o 0 att c h]
      | otherError m => rw [tts_loop_other o 0 att m h]
      | httpError s =>
          by_cases hs : s = 429
          · subst hs; rw [tts_loop_429_zero o att h]
          · rw [tts_loop_http_ne o 0 att s h hs]
  | succ r ih =>
      intro att
      cases h : o att with
      | ok c => rw [tts_loop_ok o (r + 1) att c h]
      | otherError m => rw [tts_loop_other o (r + 1) att m h]
      | httpError s =>
          by_cases hs : s = 429
          · subst hs
            rw [tts_loop_429_succ o r att h]
            have := ih (att + 1)
            omega
          · rw [tts_loop_http_ne o (r + 1) att s h hs]

theorem tts_loop_le (o : Nat → TtsResp) (rem : Nat) :
    ∀ att, (tts_loop o rem att).1 ≤ att + rem + 1 := by
  induction rem with
  | zero =>
      intro att
      cases h : o att with
      | ok c => rw [tts_loop_ok o 0 att c h]
      | otherError m => rw [tts_loop_other o 0 att m h]
      | httpError s =>
          by_cases hs : s = 429
          · subst hs; rw [tts_loop_429_zero o att h]
          · rw [tts_loop_http_ne o 0 att s h hs]
  | succ r ih =>
      intro att
      cases h : o att with
      | ok c => rw [tts_loop_ok o (r + 1) att c h]; omega
      | otherError m => rw [tts_loop_other o (r + 1) att m h]; omega
      | httpError s =>
          by_cases hs : s = 429
          · subst hs
            rw [tts_loop_429_succ o r att h]
            have := ih (att + 1)
            omega
          · rw [tts_loop_http_ne o (r + 1) att s h hs]; omega

theorem tts_loop_pre429 (o : Nat → TtsResp) (rem : Nat) :
    ∀ att i, att ≤ i → i + 1 < (tts_loop o rem att).1 → o i = .httpError 429 := by
  induction rem with
  | zero =>
      intro att i hai hlt
      exfalso
      cases h : o att with
      | ok c => rw [tts_loop_ok o 0 att c h] at hlt; omega
      | otherError m => rw [tts_loop_other o 0 att m h] at hlt; omega
      | httpError s =>
          by_cases hs : s = 429
          · subst hs; rw [tts_loop_429_zero o att h] at hlt; omega
          · rw [tts_loop_http_ne o 0 att s h hs] at hlt; omega
  | succ r ih =>
      intro att i hai hlt
      cases h : o att with
      | ok c => rw [tts_loop_ok o (r + 1) att c h] at hlt; omega
      | otherError m => rw [tts_loop_other o (r + 1) att m h] at hlt; omega
      | httpError s =>
          by_cases hs : s = 429
          · subst hs
            rw [tts_loop_429_succ o r att h] at hlt
            rcases Nat.eq_or_lt_of_le hai with heq | hgt
            · exact heq ▸ h
            · exact ih (att + 1) i hgt hlt
          · rw [tts_loop_http_ne o (r + 1) att s h hs] at hlt; omega

theorem tts_loop_waits (o : Nat → TtsResp) (rem : Nat) :
    ∀ att, (tts_loop o rem att).2.1 =
      (List.range' att ((tts_loop o rem att).1 - 1 - att)).map (fun i => 2 ^ i) := by
  induction rem with
  | zero =>
      intro att
      cases h : o att with
      | ok c => rw [tts_loop_ok o 0 att c h]; simp
      | otherError m => rw [tts_loop_other o 0 att m h]; simp
      | httpError s =>
          by_cases hs : s = 429
          · subst hs; rw [tts_loop_429_zero o att h]; simp
          · rw [tts_loop_http_ne o 0 att s h hs]; simp
  | succ r ih =>
      intro att
      cases h : o att with
      | ok c => rw [tts_loop_ok o (r + 1) att c h]; simp
      | otherError m => rw [tts_loop_other o (r + 1) att m h]; simp
      | httpError s =>
          by_cases hs : s = 429
          · subst hs
            rw [tts_loop_429_succ o r att h]
            have hge := tts_loop_ge o r (att + 1)
            have hk : (tts_loop o r (att + 1)).1 - 1 - att =
                ((tts_loop o r (att + 1)).1 - 1 - (att + 1)) + 1 := by
              omega
            rw [hk, List.range'_succ, List.map_cons, ih (att + 1)]
          · rw [tts_loop_http_ne o (r + 1) att s h hs]; simp

theorem tts_loop_exhaust (o : Nat → TtsResp) (rem : Nat) :
    ∀ att, (∀ i, att ≤ i → i ≤ att + rem → o i = .httpError 429) →
      (tts_loop o rem att).1 = att + rem + 1 ∧
      (tts_loop o rem att).2.2 = .raised (.httpError 429) := by
  induction rem with
  | zero =>
      intro att hall
      have h := hall att (le_refl att) (by omega)
      rw [tts_loop_429_zero o att h]
      exact ⟨rfl, rfl⟩
  | succ r ih =>
      intro att hall
      have h := hall att (le_refl att) (by omega)
      rw [tts_loop_429_succ o r att h]
      have := ih (att + 1) (fun i hi hi2 => hall i (by omega) (by omega))
      exact ⟨by omega, this.2⟩

theorem tts_loop_first_exit (o : Nat → TtsResp) (rem : Nat) :
    ∀ att k, att ≤ k → k ≤ att + rem →
      (∀ i, att ≤ i → i < k → o i = .httpError 429) →
      (∀ c, o k = .ok c →
        (tts_loop o rem att).1 = k + 1 ∧ (tts_loop o rem att).2.2 = .success c) ∧
      (∀ m, o k = .otherError m →
        (tts_loop o rem att).1 = k + 1 ∧
        (tts_loop o rem att).2.2 = .raised (.otherError m)) ∧
      (∀ s, s ≠ 429 → o k = .httpError s →
        (tts_loop o rem att).1 = k + 1 ∧
        (tts_loop o rem att).2.2 = .raised (.httpError s)) := by
  induction rem with
  | zero =>
      intro att k hak hkb hpre
      have hk : k = att := by omega
      subst hk
      refine ⟨?_, ?_, ?_⟩
      · intro c hc
        rw [tts_loop_ok o 0 k c hc]
        exact ⟨rfl, rfl⟩
      · intro m hm
        rw [tts_loop_other o 0 k m hm]
        exact ⟨rfl, rfl⟩
      · intro s hs hhttp
        rw [tts_loop_http_ne o 0 k s hhttp hs]
        exact ⟨rfl, rfl⟩
  | succ r ih =>
      intro att k hak hkb hpre
      rcases Nat.eq_or_lt_of_le hak with heq | hgt
      · subst heq
        refine ⟨?_, ?_, ?_⟩
        · intro c hc
          rw [tts_loop_ok o (r + 1) att c hc]
          exact ⟨rfl, rfl⟩
        · intro m hm
          rw [tts_loop_other o (r + 1) att m hm]
          exact ⟨rfl, rfl⟩
        · intro s hs hhttp
          rw [tts_loop_http_ne o (r + 1) att s hhttp hs]
          exact ⟨rfl, rfl⟩
      · have hatt : o att = .httpError 429 := hpre att (le_refl att) hgt
        rw [tts_loop_429_succ o r att hatt]
        exact ih (att + 1) k hgt (by omega) (fun i hi hik => hpre i (by omega) hik)

theorem tts_loop_reaches (o : Nat → TtsResp) (rem : Nat) :
    ∀ att k, att ≤ k → k ≤ att + rem →
      (∀ i, att ≤ i → i < k → o i = .httpError 429) →
      k + 1 ≤ (tts_loop o rem att).1 := by
  induction rem with
  | zero =>
      intro att k hak hkb _
      have hk : k = att := by omega
      subst hk
      exact tts_loop_ge o 0 k
  | succ r ih =>
      intro att k hak hkb hpre
      rcases Nat.eq_or_lt_of_le hak with heq | hgt
      · subst heq
        exact tts_loop_ge o (r + 1) att
      · have hatt : o att = .httpError 429 := hpre att (le_refl att) hgt
        rw [tts_loop_429_succ o r att hatt]
        have := ih (att + 1) k hgt (by omega) (fun i hi hik => hpre i (by omega) hik)
        omega

/-- C9: `tts_to_bytes` makes at most `max_retries + 1` requests (so at most
4 in total for the default of 3); every request other than the last was
answered with the rate-limit status 429 (nothing else causes a retry) and
was followed by a `2 ^ attempt`-second wait; if every allowed attempt
yields 429 the loop exhausts its budget and raises the 429 error; any
non-429 HTTP error or non-HTTP exception raises immediately with no
further request; a success returns the content immediately; and as long as
only 429s occur within budget the loop does keep retrying. -/
theorem c9_tts_retry_policy (oracle : Nat → TtsResp) (mr : Nat) :
    (tts_to_bytes oracle mr).1 ≤ mr + 1 ∧
    (∀ i, i + 1 < (tts_to_bytes oracle mr).1 → oracle i = .httpError 429) ∧
    (tts_to_bytes oracle mr).2.1 =
      (List.range ((tts_to_bytes oracle mr).1 - 1)).map (fun i => 2 ^ i) ∧
    ((∀ i, i ≤ mr → oracle i = .httpError 429) →
      (tts_to_bytes oracle mr).1 = mr + 1 ∧
      (tts_to_bytes oracle mr).2.2 = .raised (.httpError 429)) ∧
    (∀ k m, k ≤ mr → (∀ i, i < k → oracle i = .httpError 429) →
      oracle k = .otherError m →
      (tts_to_bytes oracle mr).1 = k + 1 ∧
      (tts_to_bytes oracle mr).2.2 = .raised (.otherError m)) ∧
    (∀ k s, k ≤ mr → (∀ i, i < k → oracle i = .httpError 429) → s ≠ 429 →
      oracle k = .httpError s →
      (tts_to_bytes oracle mr).1 = k + 1 ∧
      (tts_to_bytes oracle mr).2.2 = .raised (.httpError s)) ∧
    (∀ k c, k ≤ mr → (∀ i, i < k → oracle i = .httpError 429) →
      oracle k = .ok c →
      (tts_to_bytes oracle mr).1 = k + 1 ∧
      (tts_to_bytes oracle mr).2.2 = .success c) ∧
    (∀ k, k ≤ mr → (∀ i, i < k → oracle i = .httpError 429) →
      k + 1 ≤ (tts_to_bytes oracle mr).1) := by
  unfold tts_to_bytes
  refine ⟨?_, ?_, ?_, ?_, ?_, ?_, ?_, ?_⟩
  · have := tts_loop_le oracle mr 0
    omega
  · intro i hi
    exact tts_loop_pre429 oracle mr 0 i (Nat.zero_le i) hi
  · have := tts_loop_waits oracle mr 0
    rw [this, List.range_eq_range']
    simp
  · intro hall
    have h := tts_loop_exhaust oracle mr 0 (fun i _ hi => hall i (by omega))
    exact ⟨by omega, h.2⟩
  · intro k m hk hpre hm
    exact (tts_loop_first_exit oracle mr 0 k (Nat.zero_le k) (by omega)
      (fun i _ hik => hpre i hik)).2.1 m hm
  · intro k s hk hpre hs hhttp
    exact (tts_loop_first_exit oracle mr 0 k (Nat.zero_le k) (by omega)
      (fun i _ hik => hpre i hik)).2.2 s hs hhttp
  · intro k c hk hpre hc
    exact (tts_loop_first_exit oracle mr 0 k (Nat.zero_le k) (by omega)
      (fun i _ hik => hpre i hik)).1 c hc
  · intro k hk hpre
    exact tts_loop_reaches oracle mr 0 k (Nat.zero_le k) (by omega)
      (fun i _ hik => hpre i hik)

/-- Witness for C9: with the default budget of 3, an oracle answering 429
then a non-HTTP error makes exactly two requests, waits 1 second after the
429, and raises the second error verbatim. -/
theorem c9_tts_retry_policy_witness :
    (tts_to_bytes
      (fun i => if i = 0 then TtsResp.httpError 429 else TtsResp.otherError "timeout")
      3).1 = 2 ∧
    (tts_to_bytes
      (fun i => if i = 0 then TtsResp.httpError 429 else TtsResp.otherError "timeout")
      3).2.2 = TtsOutcome.raised (TtsResp.otherError "timeout") ∧
    (tts_to_bytes
      (fun i => if i = 0 then TtsResp.httpError 429 else TtsResp.otherError "timeout")
      3).2.1 = [1] := by
  have h := c9_tts_retry_policy
    (fun i => if i = 0 then TtsResp.httpError 429 else TtsResp.otherError "timeout") 3
  have h5 := h.2.2.2.2.1 1 "timeout" (by omega)
    (fun i hi => by
      have hz : i = 0 := by omega
      subst hz
      rfl)
    rfl
  refine ⟨h5.1, h5.2, ?_⟩
  have h3 := h.2.2.1
  rw [h5.1] at h3
  simpa using h3

/-! ## C10 -/

theorem foldl_dictSet_get_ne {V : Type} (kwargs : List (String × V))
    (d : List (String × V)) (k : String) (h : ∀ p ∈ kwargs, k ≠ p.1) :
    dictGet? (kwargs.foldl (fun acc p => dictSet acc p.1 p.2) d) k = dictGet? d k := by
  induction kwargs generalizing d with
  | nil => rfl
  | cons p ps ih =>
      rw [List.foldl_cons, ih _ (fun q hq => h q (List.mem_cons_of_mem _ hq))]
      rw [dictGet_dictSet, if_neg]
      intro heq
      exact h p (List.mem_cons_self _ _) heq.symm

/-- C10: `update_job_status` is a field-level merge starting from the
latest stored record: after an update, the job's stored record maps every
key not named in the call — not `status`, not `error` (when an error
argument was passed), and not a kwarg key — to exactly the value it had
before. -/
theorem c10_update_is_field_merge (store : KVStore) (job_id status : String)
    (error : Option String) (kwargs : List (String × PyVal)) (jd : JobDict)
    (k : String)
    (hget : dictGet? store ("job:" ++ job_id) = some jd)
    (hjd : jd ≠ [])
    (hk1 : k ≠ "status")
    (hk2 : ∀ e, error = some e → k ≠ "error")
    (hk3 : ∀ p ∈ kwargs, k ≠ p.1) :
    ∃ jd', dictGet? (update_job_status store job_id status error kwargs)
        ("job:" ++ job_id) = some jd' ∧
      dictGet? jd' k = dictGet? jd k := by
  have hempty : jd.isEmpty = false := by
    cases jd with
    | nil => exact absurd rfl hjd
    | cons p ps => rfl
  unfold update_job_status
  rw [hget]
  simp only [hempty, Bool.false_eq_true, if_false]
  refine ⟨kwargs.foldl (fun acc p => dictSet acc p.1 p.2)
      (match error with
       | some e =>
           if e ≠ "" then
             dictSet (dictSet jd "status" (PyVal.vstr status)) "error" (PyVal.vstr e)
           else dictSet jd "status" (PyVal.vstr status)
       | none => dictSet jd "status" (PyVal.vstr status)), ?_, ?_⟩
  · rw [dictGet_dictSet, if_pos rfl]
    cases error <;> rfl
  · rw [foldl_dictSet_get_ne _ _ _ hk3]
    have hstatus : dictGet? (dictSet jd "status" (PyVal.vstr status)) k = dictGet? jd k := by
      rw [dictGet_dictSet, if_neg (fun heq => hk1 heq.symm)]
    cases error with
    | none => exact hstatus
    | some e =>
        by_cases he : e = ""
        · simp only [he, ne_eq, not_true_eq_false, if_false]
          exact hstatus
        · simp only [ne_eq, he, not_false_eq_true, if_true]
          rw [dictGet_dictSet, if_neg (fun heq => hk2 e rfl heq.symm)]
          exact hstatus

/-- Witness for C10: updating status and the completed-scenes counter of a
stored record leaves its `error` field exactly as stored. -/
theorem c10_update_is_field_merge_witness :
    ∃ jd', dictGet? (update_job_status
        [("job:a", [("status", PyVal.vstr "queued"), ("error", PyVal.vnone),
                    ("scenes_completed", PyVal.vint 0)])]
        "a" "running" none [("scenes_completed", PyVal.vint 1)])
        ("job:" ++ "a") = some jd' ∧
      dictGet? jd' "error" =
        dictGet? [("status", PyVal.vstr "queued"), ("error", PyVal.vnone),
                  ("scenes_completed", PyVal.vint 0)] "error" :=
  c10_update_is_field_merge
    [("job:a", [("status", PyVal.vstr "queued"), ("error", PyVal.vnone),
                ("scenes_completed", PyVal.vint 0)])]
    "a" "running" none [("scenes_completed", PyVal.vint 1)]
    [("status", PyVal.vstr "queued"), ("error", PyVal.vnone),
     ("scenes_completed", PyVal.vint 0)]
    "error" (by decide) (by decide) (by decide)
    (fun e he => by cases he) (by decide)

end SocialStory
